import Mathlib

/-!
Shallow embedding of `src/chat_handler.py` from the hf-proxy-space repository.

The module has two functions:
* `chat_respond` — a generator that acquires a token from the proxy, makes a
  streaming chat-completion call under a 120 s wall-clock timeout and a 30 s
  per-fragment idle timeout, yields growing partial responses, reports token
  status back to the proxy, and translates every raised failure into a single
  formatted user-facing error string.
* `handle_chat_submit` — a generator that appends the user turn to the history,
  drives `chat_respond` with the history excluding that turn, and yields a
  (history, compose-box) pair per partial response.

External effects (the proxy, the inference client, wall-clock time) are modelled
by an `Env` record describing one call's outcomes; the generator's observable
behaviour is an event trace (yields, the provider stream call, token reports).
-/

/-- A chat message: the Python dict of shape `{"role": r, "content": c}`. -/
structure ChatMsg where
  role : String
  content : String
deriving DecidableEq, Repr

/-- One message received from the provider stream: its wall-clock arrival time
(seconds, as read by `time.time()` at the top of the loop body) and its text
content. `content = ""` models the Python-falsy cases (no choices, `None`
delta content, or empty string), which the code treats identically. -/
structure StreamMsg where
  arrival : Nat
  content : String
deriving DecidableEq, Repr

/-- The exception classes distinguished by the `except` ladder of
`chat_respond` (lines 125-164), each carrying its `str(e)` text. -/
inductive PyExn where
  | connectionError (msg : String)
  | timeoutError (msg : String)
  | hfHubHTTPError (msg : String)
  | otherError (msg : String)
deriving DecidableEq, Repr

/-- Observable events of one `chat_respond` call, in order:
`yield s` is a generator yield, `streamCall msgs` is the submission of the
streaming chat-completion request with provider-bound message list `msgs`,
and `report tid status msg` is a `report_token_status` call. -/
inductive Event where
  | yield (s : String)
  | streamCall (messages : List ChatMsg)
  | report (tokenId status : String) (msg : Option String)
deriving DecidableEq, Repr

/-- Outcomes of the external collaborators for one call. -/
structure Env where
  /-- Whether the local `PROXY_KEY` credential is configured and valid. -/
  proxyKeyPresent : Bool
  /-- `get_proxy_token`: either `(token, token_id)` or a raised exception. -/
  tokenResult : Except PyExn (String × String)
  /-- Seconds until `client.chat_completion` returns or raises inside the
  single-worker executor (`future.result(timeout=120)` waits this long). -/
  openDuration : Nat
  /-- What the completed `chat_completion` call produces: the stream's
  messages, or a raised exception. -/
  openOutcome : Except PyExn (List StreamMsg)
  /-- `time.time()` when the stream is obtained (`last_token_time` initial value). -/
  streamStart : Nat
  /-- An exception raised by the stream iterator after all its messages
  were delivered (`none` = clean end of stream). -/
  midStreamExn : Option PyExn
deriving Repr

/-- Constant `INFERENCE_TIMEOUT = 120` (chat_handler.py line 21). -/
def INFERENCE_TIMEOUT : Nat := 120

/-- Constant `token_timeout = 30` (chat_handler.py line 99). -/
def token_timeout : Nat := 30

/-- Whether a list-of-characters needle begins a hay list. -/
def beginsWith : List Char → List Char → Bool
  | [], _ => true
  | _ :: _, [] => false
  | a :: as, b :: bs => if a = b then beginsWith as bs else false

/-- Contiguous-substring test on character lists (needle, hay). -/
def containsChars : List Char → List Char → Bool
  | needle, [] => beginsWith needle []
  | needle, b :: bs => beginsWith needle (b :: bs) || containsChars needle bs

/-- The Python substring test `needle in hay` for strings. -/
def strContains (hay needle : String) : Bool :=
  containsChars needle.data hay.data

/-- Modelled from the spec: `utils.format_error_message` is repository code
not under `src/`; the spec says every failure is translated into a single
"formatted error string categorized by failure kind".  We model the format
as the category label followed by the detail text. -/
def format_error_message (error_type message : String) : String :=
  "** " ++ error_type ++ " **: " ++ message

/-- Modelled from the spec: `utils.validate_proxy_key` is repository code not
under `src/`; the spec says step 1 validates a locally-configured access
credential and, if absent/invalid, the responder yields a single error string
and stops, with no network call made. -/
def validate_proxy_key (env : Env) : Bool × String :=
  if env.proxyKeyPresent then (true, "")
  else (false, format_error_message ("Configuration Error")
    ("PROXY_KEY is not configured. Set it in the Space settings."))

/-- Lines 57-59: `messages = [{"role": "system", ...}] ; extend(history) ;
append({"role": "user", ...})`. -/
def buildMessages (system_message : String) (history : List ChatMsg)
    (message : String) : List ChatMsg :=
  ChatMsg.mk ("system") system_message :: (history ++ [ChatMsg.mk ("user") message])

/-- Lines 101-115: the `for message in stream` loop.  Arguments are
`last_token_time` and the accumulator `response`; the result is
(the list of yielded strings, the final `response`, whether the 30 s idle
check raised `TimeoutError`).  The idle check compares the current arrival
time against the last time a content-bearing fragment arrived; only a
non-empty content fragment resets the timer, but every received message
appends its (possibly empty) content and yields the accumulator. -/
def streamIterate (last_token_time : Nat) (response : String) :
    List StreamMsg → List String × String × Bool
  | [] => ([], response, false)
  | m :: rest =>
    if token_timeout < m.arrival - last_token_time then
      ([], response, true)
    else
      let token_content := if m.content = "" then "" else m.content
      let last2 := if m.content = "" then last_token_time else m.arrival
      let response2 := response ++ token_content
      let r := streamIterate last2 response2 rest
      (response2 :: r.1, r.2.1, r.2.2)

/-- Lines 89-119: the executor block.  `future.result(timeout=120)` raises
`FutureTimeoutError` when the call has not completed within 120 s, which the
code re-raises as `TimeoutError`; otherwise the call's own exception (if any)
propagates; otherwise the stream is iterated, where the idle check or a
mid-stream exception may abort.  On abort the strings already yielded are
carried alongside the exception. -/
def streamRun (env : Env) : Except (List String × PyExn) (List String) :=
  if INFERENCE_TIMEOUT < env.openDuration then
    .error ([], .timeoutError
      ("Chat request timed out after " ++ Nat.repr INFERENCE_TIMEOUT ++ " seconds"))
  else
    match env.openOutcome with
    | .error e => .error ([], e)
    | .ok msgs =>
      let r := streamIterate env.streamStart "" msgs
      if r.2.2 then
        .error (r.1, .timeoutError
          ("No response received for " ++ Nat.repr token_timeout ++ " seconds during streaming"))
      else
        match env.midStreamExn with
        | some e => .error (r.1, e)
        | none => .ok r.1

/-- The `error_msg` each `except` branch reports to the proxy (lines 127,
135, 143, 160). -/
def errorMsgFor : PyExn → String
  | .connectionError m => "Cannot connect to HF-Inferoxy server: " ++ m
  | .timeoutError m => "Request timed out: " ++ m
  | .hfHubHTTPError m => m
  | .otherError m => m

/-- The user-facing string each `except` branch yields (lines 131, 139,
149-156, 164).  HfHubHTTPError is sub-classified by substring tests
`"401" in error_msg`, `"402" in ...`, `"429" in ...` in that order. -/
def errorYieldFor : PyExn → String
  | .connectionError _ => format_error_message ("Connection Error")
      ("Unable to connect to the proxy server. Please check if it\x27s running.")
  | .timeoutError _ => format_error_message ("Timeout Error")
      ("The request took too long. The server may be overloaded. Please try again.")
  | .hfHubHTTPError m =>
      if strContains m ("401") then
        format_error_message ("Authentication Error")
          ("Invalid or expired API token. The proxy will provide a new token on retry.")
      else if strContains m ("402") then
        format_error_message ("Quota Exceeded")
          ("API quota exceeded. The proxy will try alternative providers.")
      else if strContains m ("429") then
        format_error_message ("Rate Limited")
          ("Too many requests. Please wait a moment and try again.")
      else
        format_error_message ("HuggingFace API Error") m
  | .otherError m => format_error_message ("Unexpected Error")
      ("An unexpected error occurred: " ++ m)

/-- An `except` branch: `if token_id: report_token_status(token_id, "error",
error_msg)` then `yield format_error_message(...)`.  `token_id` is `None`
(here `none`) when acquisition had not yet succeeded; a non-`None` id is
reported only when Python-truthy (non-empty). -/
def handleExn (token_id : Option String) (e : PyExn) : List Event :=
  (match token_id with
   | some tid => if tid = "" then [] else [Event.report tid ("error") (some (errorMsgFor e))]
   | none => []) ++ [Event.yield (errorYieldFor e)]

/-- Lines 121-123: `if token_id: report_token_status(token_id, "success", ...)`. -/
def successReport (token_id : String) : List Event :=
  if token_id = "" then [] else [Event.report token_id ("success") none]

/-- Lines 24-164: `chat_respond` as an event trace.  Validation failure
yields the validator's error string and stops; a raised token acquisition
lands in the `except` ladder with `token_id = None`; otherwise the provider
call is submitted (`streamCall`), the stream's accumulations are yielded,
and either the success report is made or the raised failure is reported and
translated. -/
def chat_respond (env : Env) (message : String) (history : List ChatMsg)
    (system_message : String) : List Event :=
  let v := validate_proxy_key env
  if v.1 = false then [Event.yield v.2]
  else
    match env.tokenResult with
    | .error e => handleExn none e
    | .ok (_token, token_id) =>
      let messages := buildMessages system_message history message
      match streamRun env with
      | .ok ys =>
          Event.streamCall messages :: (ys.map Event.yield ++ successReport token_id)
      | .error (ys, e) =>
          Event.streamCall messages :: (ys.map Event.yield ++ handleExn (some token_id) e)

/-- The strings a trace yields, in order. -/
def yieldsOf : List Event → List String
  | [] => []
  | Event.yield s :: t => s :: yieldsOf t
  | Event.streamCall _ :: t => yieldsOf t
  | Event.report _ _ _ :: t => yieldsOf t

/-- The `report_token_status` calls of a trace, in order. -/
def reportsOf : List Event → List (String × String × Option String)
  | [] => []
  | Event.report tid st m :: t => (tid, st, m) :: reportsOf t
  | Event.yield _ :: t => reportsOf t
  | Event.streamCall _ :: t => reportsOf t

/-- The provider-bound message lists of the streaming calls a trace makes. -/
def providerCallsOf : List Event → List (List ChatMsg)
  | [] => []
  | Event.streamCall msgs :: t => msgs :: providerCallsOf t
  | Event.yield _ :: t => providerCallsOf t
  | Event.report _ _ _ :: t => providerCallsOf t

/-- The Python `str.strip()` with no arguments: remove whitespace from both
ends, modelled executably over the character list (the library
`String.trim` is equivalent but does not reduce inside the kernel). -/
def pyStrip (s : String) : String :=
  String.mk (((s.data.dropWhile Char.isWhitespace).reverse.dropWhile
    Char.isWhitespace).reverse)

/-- Lines 167-195: `handle_chat_submit`.  A whitespace-only message yields
the unchanged history with an empty compose box and stops; otherwise the
user turn is appended, `chat_respond` is driven with `history[:-1]`, and
each partial response yields the appended history plus one assistant turn. -/
def handle_chat_submit (env : Env) (message : String) (history : List ChatMsg)
    (system_msg : String) : List (List ChatMsg × String) :=
  if pyStrip message = "" then [(history, "")]
  else
    let history1 := history ++ [ChatMsg.mk ("user") message]
    let ys := yieldsOf (chat_respond env message history1.dropLast system_msg)
    ys.map (fun p => (history1 ++ [ChatMsg.mk ("assistant") p], ""))

/-- Cumulative accumulations: one entry per received stream message, each the
accumulator after appending that message's content. -/
def accList (r : String) : List String → List String
  | [] => []
  | c :: cs => (r ++ c) :: accList (r ++ c) cs

/-- The exception the `except` ladder catches on this environment, if any
(`none` also covers the validation-failure path, which yields before the
`try` block). -/
def respondFailure (env : Env) : Option PyExn :=
  if env.proxyKeyPresent = false then none
  else
    match env.tokenResult with
    | .error e => some e
    | .ok _ =>
      match streamRun env with
      | .error (_, e) => some e
      | .ok _ => none

/-- The partial responses yielded before a failure (or all of them on a
clean run); empty when the failure precedes the stream. -/
def partialYieldsOf (env : Env) : List String :=
  if env.proxyKeyPresent = false then []
  else
    match env.tokenResult with
    | .error _ => []
    | .ok _ =>
      match streamRun env with
      | .error (ys, _) => ys
      | .ok ys => ys

-- Sample environment: a successful two-fragment stream.
def sampleMsgs : List StreamMsg :=
  [StreamMsg.mk 100 ("Hi"), StreamMsg.mk 101 (" there")]

def envOk : Env :=
  { proxyKeyPresent := true
    tokenResult := .ok ("tok", "tid1")
    openDuration := 1
    openOutcome := .ok sampleMsgs
    streamStart := 100
    midStreamExn := none }

/-- Concatenation of a list of strings, in order. -/
def concatAll : List String → String
  | [] => ""
  | c :: cs => c ++ concatAll cs


-- ## Environments used as concrete inputs

def msgsC1 : List StreamMsg :=
  [StreamMsg.mk 100 ("Hi"), StreamMsg.mk 100 (""), StreamMsg.mk 101 (" there")]

def envC1 : Env := { envOk with openOutcome := Except.ok msgsC1 }

def envC2 : Env := { envOk with openDuration := 121 }

def envC4 : Env := { envOk with
  openOutcome := Except.ok [StreamMsg.mk 100 ("Hi")]
  midStreamExn := some (PyExn.otherError ("boom")) }

def envC9 : Env := { envOk with
  tokenResult := Except.error (PyExn.connectionError ("refused")) }

def envC10 : Env := { envOk with openOutcome := Except.ok ([] : List StreamMsg) }


/-- The history with the new user turn appended (line 176). -/
def appendUser (hist : List ChatMsg) (m : String) : List ChatMsg :=
  hist ++ [ChatMsg.mk ("user") m]

/-- The partial responses the responder yields when driven by the merger
(lines 179-187: `chat_respond` receives `history[:-1]` of the appended
history). -/
def responderYields (env : Env) (m : String) (hist : List ChatMsg)
    (sys : String) : List String :=
  yieldsOf (chat_respond env m (appendUser hist m).dropLast sys)

/-- Number of assistant turns in a history. -/
def assistantCount (l : List ChatMsg) : Nat :=
  (l.filter (fun c => c.role == "assistant")).length


/-- Modelled from the external client library: the `str(e)` text of an
`HfHubHTTPError` follows the requests-library HTTPError format, beginning
with the decimal HTTP status code, followed by text that carries no further
digits.  The repository code only ever sees this text (it tests substrings
of it), so the status code reaches the classifier exactly as this leading
number. -/
def canonHfError (status : Nat) : String :=
  Nat.repr status ++ " Client Error: reason for url: u"


-- ## Trace-projection lemmas

theorem yieldsOf_append (a b : List Event) :
    yieldsOf (a ++ b) = yieldsOf a ++ yieldsOf b := by
  induction a with
  | nil => rfl
  | cons e t ih => cases e <;> simp [yieldsOf, ih]

theorem yieldsOf_map_yield (l : List String) :
    yieldsOf (l.map Event.yield) = l := by
  induction l with
  | nil => rfl
  | cons s t ih => simp [yieldsOf, ih]

theorem reportsOf_append (a b : List Event) :
    reportsOf (a ++ b) = reportsOf a ++ reportsOf b := by
  induction a with
  | nil => rfl
  | cons e t ih => cases e <;> simp [reportsOf, ih]

theorem reportsOf_map_yield (l : List String) :
    reportsOf (l.map Event.yield) = [] := by
  induction l with
  | nil => rfl
  | cons s t ih => simp [reportsOf, ih]

theorem providerCallsOf_append (a b : List Event) :
    providerCallsOf (a ++ b) = providerCallsOf a ++ providerCallsOf b := by
  induction a with
  | nil => rfl
  | cons e t ih => cases e <;> simp [providerCallsOf, ih]

theorem providerCallsOf_map_yield (l : List String) :
    providerCallsOf (l.map Event.yield) = [] := by
  induction l with
  | nil => rfl
  | cons s t ih => simp [providerCallsOf, ih]

theorem yieldsOf_handleExn (tid : Option String) (e : PyExn) :
    yieldsOf (handleExn tid e) = [errorYieldFor e] := by
  cases tid with
  | none => rfl
  | some t =>
    by_cases h : t = "" <;> simp [handleExn, h, yieldsOf]

theorem reportsOf_handleExn_none (e : PyExn) :
    reportsOf (handleExn none e) = [] := rfl

theorem reportsOf_handleExn_some (t : String) (h : t ≠ "") (e : PyExn) :
    reportsOf (handleExn (some t) e) = [(t, "error", some (errorMsgFor e))] := by
  simp [handleExn, h, reportsOf]

theorem providerCallsOf_handleExn (tid : Option String) (e : PyExn) :
    providerCallsOf (handleExn tid e) = [] := by
  cases tid with
  | none => rfl
  | some t =>
    by_cases h : t = "" <;> simp [handleExn, h, providerCallsOf]

theorem yieldsOf_successReport (t : String) :
    yieldsOf (successReport t) = [] := by
  by_cases h : t = "" <;> simp [successReport, h, yieldsOf]

theorem reportsOf_successReport (t : String) (h : t ≠ "") :
    reportsOf (successReport t) = [(t, "success", none)] := by
  simp [successReport, h, reportsOf]

theorem providerCallsOf_successReport (t : String) :
    providerCallsOf (successReport t) = [] := by
  by_cases h : t = "" <;> simp [successReport, h, providerCallsOf]

-- ## Unfolding lemmas for the responder

theorem chat_respond_ok (env : Env) (tok tid m sys : String) (hist : List ChatMsg)
    (ys : List String)
    (hv : env.proxyKeyPresent = true)
    (ht : env.tokenResult = Except.ok (tok, tid))
    (hs : streamRun env = Except.ok ys) :
    chat_respond env m hist sys =
      Event.streamCall (buildMessages sys hist m) ::
        (ys.map Event.yield ++ successReport tid) := by
  simp [chat_respond, validate_proxy_key, hv, ht, hs]

theorem chat_respond_err (env : Env) (tok tid m sys : String) (hist : List ChatMsg)
    (ys : List String) (e : PyExn)
    (hv : env.proxyKeyPresent = true)
    (ht : env.tokenResult = Except.ok (tok, tid))
    (hs : streamRun env = Except.error (ys, e)) :
    chat_respond env m hist sys =
      Event.streamCall (buildMessages sys hist m) ::
        (ys.map Event.yield ++ handleExn (some tid) e) := by
  simp [chat_respond, validate_proxy_key, hv, ht, hs]

theorem chat_respond_token_err (env : Env) (m sys : String) (hist : List ChatMsg)
    (e : PyExn)
    (hv : env.proxyKeyPresent = true)
    (ht : env.tokenResult = Except.error e) :
    chat_respond env m hist sys = handleExn none e := by
  simp [chat_respond, validate_proxy_key, hv, ht]

-- ## Characterizing the executor block

theorem streamRun_openTimeout (env : Env)
    (hd : INFERENCE_TIMEOUT < env.openDuration) :
    streamRun env = Except.error ([], PyExn.timeoutError
      ("Chat request timed out after " ++ Nat.repr INFERENCE_TIMEOUT ++ " seconds")) := by
  simp [streamRun, hd]

theorem streamRun_openErr (env : Env) (e : PyExn)
    (hd : env.openDuration ≤ INFERENCE_TIMEOUT)
    (ho : env.openOutcome = Except.error e) :
    streamRun env = Except.error ([], e) := by
  simp [streamRun, Nat.not_lt.mpr hd, ho]

theorem streamRun_ok (env : Env) (msgs : List StreamMsg)
    (hd : env.openDuration ≤ INFERENCE_TIMEOUT)
    (ho : env.openOutcome = Except.ok msgs)
    (hm : env.midStreamExn = none)
    (hidle : (streamIterate env.streamStart "" msgs).2.2 = false) :
    streamRun env = Except.ok (streamIterate env.streamStart "" msgs).1 := by
  simp [streamRun, Nat.not_lt.mpr hd, ho, hidle, hm]

theorem streamRun_idleTimeout (env : Env) (msgs : List StreamMsg)
    (hd : env.openDuration ≤ INFERENCE_TIMEOUT)
    (ho : env.openOutcome = Except.ok msgs)
    (hidle : (streamIterate env.streamStart "" msgs).2.2 = true) :
    streamRun env = Except.error ((streamIterate env.streamStart "" msgs).1,
      PyExn.timeoutError
        ("No response received for " ++ Nat.repr token_timeout ++ " seconds during streaming")) := by
  simp [streamRun, Nat.not_lt.mpr hd, ho, hidle]

theorem streamRun_midErr (env : Env) (msgs : List StreamMsg) (e : PyExn)
    (hd : env.openDuration ≤ INFERENCE_TIMEOUT)
    (ho : env.openOutcome = Except.ok msgs)
    (hm : env.midStreamExn = some e)
    (hidle : (streamIterate env.streamStart "" msgs).2.2 = false) :
    streamRun env = Except.error ((streamIterate env.streamStart "" msgs).1, e) := by
  simp [streamRun, Nat.not_lt.mpr hd, ho, hidle, hm]

-- ## The stream loop yields cumulative accumulations

theorem streamIterate_yields (msgs : List StreamMsg) : ∀ (l : Nat) (r : String),
    (streamIterate l r msgs).2.2 = false →
    (streamIterate l r msgs).1 = accList r (msgs.map StreamMsg.content) := by
  induction msgs with
  | nil => intro l r _; rfl
  | cons m rest ih =>
    intro l r h
    simp only [streamIterate] at h ⊢
    by_cases hto : token_timeout < m.arrival - l
    · rw [if_pos hto] at h; simp at h
    · rw [if_neg hto] at h ⊢
      have hcc : (if m.content = "" then "" else m.content) = m.content := by
        by_cases hc : m.content = "" <;> simp [hc]
      simp only [hcc] at h ⊢
      simp only [List.map_cons, accList]
      rw [ih _ _ h]

-- ## Accumulation-list facts

theorem accList_length (cs : List String) : ∀ r : String,
    (accList r cs).length = cs.length := by
  induction cs with
  | nil => intro r; rfl
  | cons c cs ih => intro r; simp [accList, ih]

theorem accList_prefix_concat (cs : List String) : ∀ r p : String,
    p ∈ accList r cs → ∃ q, r ++ concatAll cs = p ++ q := by
  induction cs with
  | nil => intro r p h; simp [accList] at h
  | cons c cs ih =>
    intro r p h
    simp only [accList, List.mem_cons] at h
    rcases h with h | h
    · exact ⟨concatAll cs, by rw [h, concatAll, ← String.append_assoc]⟩
    · rcases ih (r ++ c) p h with ⟨q, hq⟩
      exact ⟨q, by rw [concatAll, ← String.append_assoc, hq]⟩

theorem accList_getLast_eq (cs : List String) : ∀ r c : String,
    (accList r (c :: cs)).getLast? = some (r ++ concatAll (c :: cs)) := by
  induction cs with
  | nil =>
    intro r c
    simp [accList, concatAll, String.append_empty]
  | cons c2 cs ih =>
    intro r c
    have h2 := ih (r ++ c) c2
    simp only [accList] at h2 ⊢
    rw [List.getLast?_cons_cons, h2]
    simp [concatAll, String.append_assoc]

-- ## Shared success-path characterization

theorem respond_success_yields (env : Env) (tok tid m sys : String) (hist : List ChatMsg)
    (msgs : List StreamMsg)
    (hv : env.proxyKeyPresent = true)
    (ht : env.tokenResult = Except.ok (tok, tid))
    (hd : env.openDuration ≤ INFERENCE_TIMEOUT)
    (ho : env.openOutcome = Except.ok msgs)
    (hmid : env.midStreamExn = none)
    (hidle : (streamIterate env.streamStart "" msgs).2.2 = false) :
    yieldsOf (chat_respond env m hist sys) = accList "" (msgs.map StreamMsg.content) := by
  have hs := streamRun_ok env msgs hd ho hmid hidle
  have htr := chat_respond_ok env tok tid m sys hist _ hv ht hs
  rw [htr]
  simp only [yieldsOf, yieldsOf_append, yieldsOf_map_yield, yieldsOf_successReport,
    List.append_nil]
  exact streamIterate_yields msgs env.streamStart "" hidle

-- ## Claim C1

/-- C1 (counterexample): the claim says a stream message with empty content
produces no yield, so for the fragment contents ["Hi", "", " there"] it
predicts the yields ["Hi", "Hi there"].  The code yields the accumulator once
per received stream message, empty content included: on this input it yields
three strings, one repeating the unchanged accumulator, although only two of
the three fragments are content-bearing. -/
theorem C1_counterexample :
    yieldsOf (chat_respond envC1 ("q") [] ("sys")) = ["Hi", "Hi", "Hi there"] ∧
    yieldsOf (chat_respond envC1 ("q") [] ("sys")) ≠ ["Hi", "Hi there"] ∧
    (msgsC1.filter (fun f => f.content != "")).length = 2 := by
  decide

/-- C1 (amended): for every successful stream received within both timeouts,
the responder yields the cumulative concatenation of all content so far,
emitting exactly one partial response per received stream message — a message
with empty content re-yields the unchanged accumulator.  In particular, for
the fragment sequence ["Hi", " there"] it yields ["Hi", "Hi there"] in order
(see the witness). -/
theorem C1_per_message_accumulation (env : Env) (tok tid m sys : String)
    (hist : List ChatMsg) (msgs : List StreamMsg)
    (hv : env.proxyKeyPresent = true)
    (ht : env.tokenResult = Except.ok (tok, tid))
    (hd : env.openDuration ≤ INFERENCE_TIMEOUT)
    (ho : env.openOutcome = Except.ok msgs)
    (hmid : env.midStreamExn = none)
    (hidle : (streamIterate env.streamStart "" msgs).2.2 = false) :
    yieldsOf (chat_respond env m hist sys) = accList "" (msgs.map StreamMsg.content) ∧
    (yieldsOf (chat_respond env m hist sys)).length = msgs.length := by
  have hy := respond_success_yields env tok tid m sys hist msgs hv ht hd ho hmid hidle
  exact ⟨hy, by rw [hy, accList_length, List.length_map]⟩

/-- C1 witness: the amended theorem applied to the concrete two-fragment
stream ["Hi", " there"], where the accumulations are ["Hi", "Hi there"]. -/
theorem C1_per_message_accumulation_witness :
    yieldsOf (chat_respond envOk ("q") [] ("sys")) =
      accList "" (sampleMsgs.map StreamMsg.content) ∧
    (yieldsOf (chat_respond envOk ("q") [] ("sys"))).length = sampleMsgs.length :=
  C1_per_message_accumulation envOk ("tok") ("tid1") ("q") ("sys") [] sampleMsgs
    rfl rfl (by decide) rfl rfl (by decide)

-- ## Claim C8

/-- C8: for every user message that is empty or whitespace-only after
trimming, the submission merger yields exactly one pair — the unchanged
input history and the empty string — and stops; the responder is never
invoked (the result does not depend on any stream outcome). -/
theorem C8_empty_message (env : Env) (m sys : String) (hist : List ChatMsg)
    (hm : pyStrip m = "") :
    handle_chat_submit env m hist sys = [(hist, "")] := by
  simp [handle_chat_submit, hm]

/-- C8 witness: a whitespace-only message with a nonempty history. -/
theorem C8_empty_message_witness :
    handle_chat_submit envOk ("   ") [ChatMsg.mk ("user") ("old")] ("sys") =
      [([ChatMsg.mk ("user") ("old")], "")] :=
  C8_empty_message envOk ("   ") ("sys") [ChatMsg.mk ("user") ("old")] (by decide)

-- ## Claim C9

/-- C9: if token acquisition raises a connection failure, the responder makes
no streaming call, makes no token report, and its whole trace is one yield of
the "Connection Error" message. -/
theorem C9_acquire_connection_failure (env : Env) (m sys cmsg : String)
    (hist : List ChatMsg)
    (hv : env.proxyKeyPresent = true)
    (ht : env.tokenResult = Except.error (PyExn.connectionError cmsg)) :
    chat_respond env m hist sys =
      [Event.yield (format_error_message ("Connection Error")
        ("Unable to connect to the proxy server. Please check if it\x27s running."))] ∧
    providerCallsOf (chat_respond env m hist sys) = [] ∧
    reportsOf (chat_respond env m hist sys) = [] := by
  have h := chat_respond_token_err env m sys hist _ hv ht
  refine ⟨?_, ?_, ?_⟩ <;> rw [h] <;> rfl

/-- C9 witness: a concrete connection failure while acquiring the token. -/
theorem C9_acquire_connection_failure_witness :
    chat_respond envC9 ("q") [] ("sys") =
      [Event.yield (format_error_message ("Connection Error")
        ("Unable to connect to the proxy server. Please check if it\x27s running."))] ∧
    providerCallsOf (chat_respond envC9 ("q") [] ("sys")) = [] ∧
    reportsOf (chat_respond envC9 ("q") [] ("sys")) = [] :=
  C9_acquire_connection_failure envC9 ("q") ("sys") ("refused") [] rfl rfl

-- ## Claim C10

/-- C10: when validation and token acquisition succeed and the provider
stream completes without delivering any message, the responder yields no
strings at all while still reporting token status "success"; consequently the
submission merger yields zero pairs, so the internally appended user turn
never appears in any yielded history state. -/
theorem C10_empty_stream (env : Env) (tok tid m sys : String) (hist : List ChatMsg)
    (hv : env.proxyKeyPresent = true)
    (ht : env.tokenResult = Except.ok (tok, tid))
    (htid : tid ≠ "")
    (hd : env.openDuration ≤ INFERENCE_TIMEOUT)
    (ho : env.openOutcome = Except.ok ([] : List StreamMsg))
    (hmid : env.midStreamExn = none)
    (hm : pyStrip m ≠ "") :
    yieldsOf (chat_respond env m ((hist ++ [ChatMsg.mk ("user") m]).dropLast) sys) = [] ∧
    reportsOf (chat_respond env m ((hist ++ [ChatMsg.mk ("user") m]).dropLast) sys) =
      [(tid, "success", none)] ∧
    handle_chat_submit env m hist sys = [] := by
  have hdrop : (hist ++ [ChatMsg.mk ("user") m]).dropLast = hist := by simp
  have hs : streamRun env = Except.ok ([] : List String) := by
    have h := streamRun_ok env [] hd ho hmid (by rfl)
    simpa [streamIterate] using h
  have htr := chat_respond_ok env tok tid m sys hist [] hv ht hs
  have h1 : yieldsOf (chat_respond env m hist sys) = [] := by
    rw [htr]
    simp [yieldsOf, yieldsOf_append, yieldsOf_map_yield, yieldsOf_successReport]
  refine ⟨?_, ?_, ?_⟩
  · rw [hdrop]; exact h1
  · rw [hdrop, htr]
    simp [reportsOf, reportsOf_append, reportsOf_map_yield, reportsOf_successReport tid htid]
  · simp [handle_chat_submit, hm, h1]

/-- C10 witness: a concrete empty stream under a nonempty user message. -/
theorem C10_empty_stream_witness :
    yieldsOf (chat_respond envC10 ("q")
      (([] ++ [ChatMsg.mk ("user") ("q")]).dropLast) ("sys")) = [] ∧
    reportsOf (chat_respond envC10 ("q")
      (([] ++ [ChatMsg.mk ("user") ("q")]).dropLast) ("sys")) =
      [("tid1", "success", none)] ∧
    handle_chat_submit envC10 ("q") [] ("sys") = [] :=
  C10_empty_stream envC10 ("tok") ("tid1") ("q") ("sys") [] rfl rfl (by decide)
    (by decide) rfl rfl (by decide)

-- ## Claim C2

/-- C2: if the stream-opening call does not return within the 120 s
wall-clock timeout, or the idle check fires because a stream message arrives
more than 30 s after the last content-bearing fragment (or stream start),
the responder raises a `TimeoutError` internally (visible as the
"Request timed out: ..." text reported to the proxy), reports token status
"error", and yields, as its final yield, the formatted "Timeout Error"
string, which contains "Timeout". -/
theorem C2_timeout_paths (env : Env) (tok tid m sys : String) (hist : List ChatMsg)
    (hv : env.proxyKeyPresent = true)
    (ht : env.tokenResult = Except.ok (tok, tid))
    (htid : tid ≠ "")
    (hto : INFERENCE_TIMEOUT < env.openDuration ∨
      (∃ msgs, env.openOutcome = Except.ok msgs ∧ env.openDuration ≤ INFERENCE_TIMEOUT ∧
        (streamIterate env.streamStart "" msgs).2.2 = true)) :
    (∃ ps em,
      yieldsOf (chat_respond env m hist sys) =
        ps ++ [format_error_message ("Timeout Error")
          ("The request took too long. The server may be overloaded. Please try again.")] ∧
      reportsOf (chat_respond env m hist sys) =
        [(tid, "error", some ("Request timed out: " ++ em))]) ∧
    strContains (format_error_message ("Timeout Error")
      ("The request took too long. The server may be overloaded. Please try again."))
      ("Timeout") = true := by
  refine ⟨?_, by decide⟩
  rcases hto with hd | ⟨msgs, ho, hd, hidle⟩
  · have hs := streamRun_openTimeout env hd
    have htr := chat_respond_err env tok tid m sys hist [] _ hv ht hs
    refine ⟨[], "Chat request timed out after " ++ Nat.repr INFERENCE_TIMEOUT ++ " seconds",
      ?_, ?_⟩
    · rw [htr]
      simp [yieldsOf, yieldsOf_append, yieldsOf_map_yield, yieldsOf_handleExn, errorYieldFor]
    · rw [htr]
      simp [reportsOf, reportsOf_append, reportsOf_map_yield,
        reportsOf_handleExn_some tid htid, errorMsgFor]
  · have hs := streamRun_idleTimeout env msgs hd ho hidle
    have htr := chat_respond_err env tok tid m sys hist _ _ hv ht hs
    refine ⟨(streamIterate env.streamStart "" msgs).1,
      "No response received for " ++ Nat.repr token_timeout ++ " seconds during streaming",
      ?_, ?_⟩
    · rw [htr]
      simp [yieldsOf, yieldsOf_append, yieldsOf_map_yield, yieldsOf_handleExn, errorYieldFor]
    · rw [htr]
      simp [reportsOf, reportsOf_append, reportsOf_map_yield,
        reportsOf_handleExn_some tid htid, errorMsgFor]

/-- C2 witness: a stream-opening call that takes 121 s. -/
theorem C2_timeout_paths_witness :
    (∃ ps em,
      yieldsOf (chat_respond envC2 ("q") [] ("sys")) =
        ps ++ [format_error_message ("Timeout Error")
          ("The request took too long. The server may be overloaded. Please try again.")] ∧
      reportsOf (chat_respond envC2 ("q") [] ("sys")) =
        [("tid1", "error", some ("Request timed out: " ++ em))]) ∧
    strContains (format_error_message ("Timeout Error")
      ("The request took too long. The server may be overloaded. Please try again."))
      ("Timeout") = true :=
  C2_timeout_paths envC2 ("tok") ("tid1") ("q") ("sys") [] rfl rfl (by decide)
    (Or.inl (by decide))

-- ## Claim C4

/-- C4 (counterexample): the claim says the single error string is "the final
and only item the generator yields", but when the failure strikes after
partial responses were already streamed, those earlier yields remain: here
the generator yields "Hi" and then the error string — two items, not one. -/
theorem C4_counterexample :
    respondFailure envC4 = some (PyExn.otherError ("boom")) ∧
    yieldsOf (chat_respond envC4 ("q") [] ("sys")) =
      ["Hi", format_error_message ("Unexpected Error")
        ("An unexpected error occurred: boom")] ∧
    (yieldsOf (chat_respond envC4 ("q") [] ("sys"))).length ≠ 1 := by
  decide

/-- C4 (amended): on every failure path of the responder, the generator
yields exactly one formatted error string, as its final yielded item —
preceded only by the partial responses already streamed before the failure —
and then terminates without raising further (the trace is total). -/
theorem C4_single_final_error (env : Env) (m sys : String) (hist : List ChatMsg)
    (e : PyExn)
    (hf : respondFailure env = some e) :
    yieldsOf (chat_respond env m hist sys) = partialYieldsOf env ++ [errorYieldFor e] := by
  rcases hvb : env.proxyKeyPresent with _ | _
  · exfalso
    simp [respondFailure, hvb] at hf
  · rcases htr : env.tokenResult with e2 | ⟨tok, tid⟩
    · have he : e2 = e := by
        simpa [respondFailure, hvb, htr] using hf
      subst he
      have h := chat_respond_token_err env m sys hist e2 hvb htr
      rw [h, yieldsOf_handleExn]
      simp [partialYieldsOf, hvb, htr]
    · rcases hsr : streamRun env with ⟨ys, e2⟩ | ys
      · have he : e2 = e := by
          simpa [respondFailure, hvb, htr, hsr] using hf
        subst he
        have h := chat_respond_err env tok tid m sys hist ys e2 hvb htr hsr
        rw [h]
        simp [yieldsOf, yieldsOf_append, yieldsOf_map_yield, yieldsOf_handleExn,
          partialYieldsOf, hvb, htr, hsr]
      · exfalso
        simp [respondFailure, hvb, htr, hsr] at hf

/-- C4 witness: the amended theorem at the concrete mid-stream failure. -/
theorem C4_single_final_error_witness :
    yieldsOf (chat_respond envC4 ("q") [] ("sys")) =
      partialYieldsOf envC4 ++ [errorYieldFor (PyExn.otherError ("boom"))] :=
  C4_single_final_error envC4 ("q") ("sys") [] (PyExn.otherError ("boom")) (by decide)

-- ## Claim C5

/-- C5: when a token is acquired (with a Python-truthy identifier), it is
reported exactly once before the generator finishes: status "success" on a
clean run, and status "error" with the failure message on any failure after
acquisition, where the error report event precedes the user-facing error
yield; when acquisition itself raised, no report is made. -/
theorem C5_token_reporting (env : Env) (m sys : String) (hist : List ChatMsg)
    (hv : env.proxyKeyPresent = true) :
    (∀ tok tid, env.tokenResult = Except.ok (tok, tid) → tid ≠ "" →
      (respondFailure env = none →
        reportsOf (chat_respond env m hist sys) = [(tid, "success", none)]) ∧
      (∀ e, respondFailure env = some e →
        reportsOf (chat_respond env m hist sys) = [(tid, "error", some (errorMsgFor e))] ∧
        ∃ pre, chat_respond env m hist sys =
          pre ++ [Event.report tid ("error") (some (errorMsgFor e)),
            Event.yield (errorYieldFor e)])) ∧
    (∀ e, env.tokenResult = Except.error e →
      reportsOf (chat_respond env m hist sys) = []) := by
  constructor
  · intro tok tid ht htid
    constructor
    · intro hf
      rcases hsr : streamRun env with ⟨ys, e⟩ | ys
      · exfalso
        simp [respondFailure, hv, ht, hsr] at hf
      · have htr := chat_respond_ok env tok tid m sys hist ys hv ht hsr
        rw [htr]
        simp [reportsOf, reportsOf_append, reportsOf_map_yield,
          reportsOf_successReport tid htid]
    · intro e hf
      rcases hsr : streamRun env with ⟨ys, e2⟩ | ys
      · have he : e2 = e := by
          simpa [respondFailure, hv, ht, hsr] using hf
        subst he
        have htr := chat_respond_err env tok tid m sys hist ys e2 hv ht hsr
        constructor
        · rw [htr]
          simp [reportsOf, reportsOf_append, reportsOf_map_yield,
            reportsOf_handleExn_some tid htid]
        · refine ⟨Event.streamCall (buildMessages sys hist m) :: ys.map Event.yield, ?_⟩
          rw [htr]
          simp [handleExn, htid]
      · exfalso
        simp [respondFailure, hv, ht, hsr] at hf
  · intro e ht
    have htr := chat_respond_token_err env m sys hist e hv ht
    rw [htr, reportsOf_handleExn_none]

/-- C5 witness: the reporting theorem at the concrete successful stream. -/
theorem C5_token_reporting_witness :
    (∀ tok tid, envOk.tokenResult = Except.ok (tok, tid) → tid ≠ "" →
      (respondFailure envOk = none →
        reportsOf (chat_respond envOk ("q") [] ("sys")) = [(tid, "success", none)]) ∧
      (∀ e, respondFailure envOk = some e →
        reportsOf (chat_respond envOk ("q") [] ("sys")) =
          [(tid, "error", some (errorMsgFor e))] ∧
        ∃ pre, chat_respond envOk ("q") [] ("sys") =
          pre ++ [Event.report tid ("error") (some (errorMsgFor e)),
            Event.yield (errorYieldFor e)])) ∧
    (∀ e, envOk.tokenResult = Except.error e →
      reportsOf (chat_respond envOk ("q") [] ("sys")) = []) :=
  C5_token_reporting envOk ("q") ("sys") [] rfl

-- ## Claim C6

/-- C6: when the responder runs with a token, the provider-bound message list
of its single streaming call is exactly [system prompt] ++ prior history ++
[new user message]; and since the merger passes the responder
`(history ++ [user turn])[:-1]`, which equals the prior history, the new
user message appears exactly once in that list whenever it did not already
occur in the prior history. -/
theorem C6_provider_message_list (env : Env) (tok tid m sys : String)
    (hist : List ChatMsg)
    (hv : env.proxyKeyPresent = true)
    (ht : env.tokenResult = Except.ok (tok, tid)) :
    (hist ++ [ChatMsg.mk ("user") m]).dropLast = hist ∧
    providerCallsOf (chat_respond env m ((hist ++ [ChatMsg.mk ("user") m]).dropLast) sys) =
      [ChatMsg.mk ("system") sys :: (hist ++ [ChatMsg.mk ("user") m])] ∧
    (ChatMsg.mk ("user") m ∉ hist →
      (ChatMsg.mk ("system") sys :: (hist ++ [ChatMsg.mk ("user") m])).count
        (ChatMsg.mk ("user") m) = 1) := by
  have hdrop : (hist ++ [ChatMsg.mk ("user") m]).dropLast = hist := by simp
  refine ⟨hdrop, ?_, ?_⟩
  · rw [hdrop]
    rcases hsr : streamRun env with ⟨ys, e⟩ | ys
    · rw [chat_respond_err env tok tid m sys hist ys e hv ht hsr]
      simp [providerCallsOf, providerCallsOf_append, providerCallsOf_map_yield,
        providerCallsOf_handleExn, buildMessages]
    · rw [chat_respond_ok env tok tid m sys hist ys hv ht hsr]
      simp [providerCallsOf, providerCallsOf_append, providerCallsOf_map_yield,
        providerCallsOf_successReport, buildMessages]
  · intro hnot
    have h1 : (hist ++ [ChatMsg.mk ("user") m]).count (ChatMsg.mk ("user") m) = 1 := by
      rw [List.count_append, List.count_eq_zero.mpr hnot]
      simp
    have hne : ChatMsg.mk ("user") m ≠ ChatMsg.mk ("system") sys := by
      simp [ChatMsg.mk.injEq]
    rw [List.count_cons]
    simp [hne, h1]

/-- C6 witness: a fresh user message over the empty history. -/
theorem C6_provider_message_list_witness :
    (([] ++ [ChatMsg.mk ("user") ("q")]).dropLast = ([] : List ChatMsg)) ∧
    providerCallsOf (chat_respond envOk ("q")
      (([] ++ [ChatMsg.mk ("user") ("q")]).dropLast) ("sys")) =
      [ChatMsg.mk ("system") ("sys") :: ([] ++ [ChatMsg.mk ("user") ("q")])] ∧
    (ChatMsg.mk ("user") ("q") ∉ ([] : List ChatMsg) →
      (ChatMsg.mk ("system") ("sys") :: ([] ++ [ChatMsg.mk ("user") ("q")])).count
        (ChatMsg.mk ("user") ("q")) = 1) :=
  C6_provider_message_list envOk ("tok") ("tid1") ("q") ("sys") [] rfl rfl

-- ## Claim C7

theorem handle_chat_submit_eq (env : Env) (m : String) (hist : List ChatMsg)
    (sys : String) (hm : pyStrip m ≠ "") :
    handle_chat_submit env m hist sys =
      (responderYields env m hist sys).map
        (fun p => (appendUser hist m ++ [ChatMsg.mk ("assistant") p], "")) := by
  simp [handle_chat_submit, responderYields, appendUser, hm]

theorem beginsWith_list_iff (a : List Char) : ∀ b : List Char,
    beginsWith a b = true ↔ ∃ c, b = a ++ c := by
  induction a with
  | nil => intro b; simp [beginsWith]
  | cons x xs ih =>
    intro b
    cases b with
    | nil =>
      simp [beginsWith]
    | cons y ys =>
      by_cases hxy : x = y
      · subst hxy
        simp [beginsWith, List.cons.injEq, ih ys]
      · simp [beginsWith, hxy, List.cons.injEq, Ne.symm hxy]

/-- The Bool test `beginsWith` decides the string-prefix relation. -/
theorem beginsWith_iff_append (p s : String) :
    beginsWith p.data s.data = true ↔ ∃ q, s = p ++ q := by
  rw [beginsWith_list_iff p.data s.data]
  constructor
  · rintro ⟨c, hc⟩
    refine ⟨String.mk c, String.ext ?_⟩
    rw [String.data_append, hc]
  · rintro ⟨q, rfl⟩
    exact ⟨q.data, by rw [String.data_append]⟩

/-- C7 (counterexample): the claim requires every intermediate assistant
content to be a prefix of the final assistant content, with no restriction
to successful streams.  On a stream that fails after delivering "Hi", the
merger yields a state with assistant content "Hi" followed by the final
state whose assistant content is the error string, and "Hi" is not a prefix
of that error string. -/
theorem C7_counterexample :
    handle_chat_submit envC4 ("hello") [] ("sys") =
      [([ChatMsg.mk ("user") ("hello"), ChatMsg.mk ("assistant") ("Hi")], ""),
       ([ChatMsg.mk ("user") ("hello"),
         ChatMsg.mk ("assistant")
           ("** Unexpected Error **: An unexpected error occurred: boom")], "")] ∧
    ¬ ∃ q, ("** Unexpected Error **: An unexpected error occurred: boom" : String) =
      "Hi" ++ q := by
  refine ⟨by decide, ?_⟩
  intro h
  rw [← beginsWith_iff_append] at h
  exact absurd h (by decide)

/-- C7 (amended): for every non-empty user message, each pair the merger
yields is the appended history plus exactly one assistant turn holding the
current partial response (with an empty compose-box value), and the final
yielded history has exactly one more assistant turn than the initial
history, its content equal to the last value the responder yielded; when
the responder additionally completes without a failure, each intermediate
assistant content is a prefix of the final one (on a failure path the final
assistant content is the error string, which earlier partials need not
prefix — see the counterexample). -/
theorem C7_merger_states (env : Env) (m sys : String) (hist : List ChatMsg)
    (hm : pyStrip m ≠ "") :
    handle_chat_submit env m hist sys =
      (responderYields env m hist sys).map
        (fun p => (appendUser hist m ++ [ChatMsg.mk ("assistant") p], "")) ∧
    (∀ fin, (responderYields env m hist sys).getLast? = some fin →
      (handle_chat_submit env m hist sys).getLast? =
        some (appendUser hist m ++ [ChatMsg.mk ("assistant") fin], "") ∧
      assistantCount (appendUser hist m ++ [ChatMsg.mk ("assistant") fin]) =
        assistantCount hist + 1) ∧
    (∀ tok tid msgs, env.proxyKeyPresent = true →
      env.tokenResult = Except.ok (tok, tid) →
      env.openDuration ≤ INFERENCE_TIMEOUT →
      env.openOutcome = Except.ok msgs →
      env.midStreamExn = none →
      (streamIterate env.streamStart "" msgs).2.2 = false →
      ∀ p ∈ responderYields env m hist sys,
        ∀ fin, (responderYields env m hist sys).getLast? = some fin →
          ∃ q, fin = p ++ q) := by
  have hmap := handle_chat_submit_eq env m hist sys hm
  refine ⟨hmap, ?_, ?_⟩
  · intro fin hfin
    constructor
    · rw [hmap, List.getLast?_map, hfin]
      rfl
    · simp [assistantCount, appendUser, List.filter_append]
  · intro tok tid msgs hv ht hd ho hmid hidle p hp fin hfin
    have hy : responderYields env m hist sys = accList "" (msgs.map StreamMsg.content) :=
      respond_success_yields env tok tid m sys ((appendUser hist m).dropLast) msgs
        hv ht hd ho hmid hidle
    rw [hy] at hp hfin
    cases hcs : msgs.map StreamMsg.content with
    | nil =>
      rw [hcs] at hp
      simp [accList] at hp
    | cons c cs =>
      rw [hcs] at hp hfin
      rw [accList_getLast_eq] at hfin
      have hfe : fin = "" ++ concatAll (c :: cs) := by
        injection hfin with h
        exact h.symm
      rcases accList_prefix_concat (c :: cs) "" p hp with ⟨q, hq⟩
      exact ⟨q, by rw [hfe, hq]⟩

/-- C7 witness: the amended theorem at a concrete non-empty message. -/
theorem C7_merger_states_witness :
    handle_chat_submit envOk ("hello") [] ("sys") =
      (responderYields envOk ("hello") [] ("sys")).map
        (fun p => (appendUser [] ("hello") ++ [ChatMsg.mk ("assistant") p], "")) ∧
    (∀ fin, (responderYields envOk ("hello") [] ("sys")).getLast? = some fin →
      (handle_chat_submit envOk ("hello") [] ("sys")).getLast? =
        some (appendUser [] ("hello") ++ [ChatMsg.mk ("assistant") fin], "") ∧
      assistantCount (appendUser [] ("hello") ++ [ChatMsg.mk ("assistant") fin]) =
        assistantCount [] + 1) ∧
    (∀ tok tid msgs, envOk.proxyKeyPresent = true →
      envOk.tokenResult = Except.ok (tok, tid) →
      envOk.openDuration ≤ INFERENCE_TIMEOUT →
      envOk.openOutcome = Except.ok msgs →
      envOk.midStreamExn = none →
      (streamIterate envOk.streamStart "" msgs).2.2 = false →
      ∀ p ∈ responderYields envOk ("hello") [] ("sys"),
        ∀ fin, (responderYields envOk ("hello") [] ("sys")).getLast? = some fin →
          ∃ q, fin = p ++ q) :=
  C7_merger_states envOk ("hello") ("sys") [] (by decide)

-- ## Claim C3

set_option maxRecDepth 100000 in
/-- C3: for every HTTP status in the range of the canonical error text
(100-599), the yielded user-facing message is sub-classified by the status
code carried in the text: 401 gives the "Authentication Error" message
(containing "Authentication"), 402 gives "Quota Exceeded", 429 gives
"Rate Limited" (containing "Rate Limited"), and every other status gives the
generic "HuggingFace API Error" message carrying the raw error text. -/
theorem C3_http_error_classification (status : Nat)
    (h1 : status < 600) (h2 : 100 ≤ status) :
    errorYieldFor (PyExn.hfHubHTTPError (canonHfError status)) =
      (if status = 401 then
        format_error_message ("Authentication Error")
          ("Invalid or expired API token. The proxy will provide a new token on retry.")
      else if status = 402 then
        format_error_message ("Quota Exceeded")
          ("API quota exceeded. The proxy will try alternative providers.")
      else if status = 429 then
        format_error_message ("Rate Limited")
          ("Too many requests. Please wait a moment and try again.")
      else
        format_error_message ("HuggingFace API Error") (canonHfError status)) ∧
    (status = 401 →
      strContains (errorYieldFor (PyExn.hfHubHTTPError (canonHfError status)))
        ("Authentication") = true) ∧
    (status = 429 →
      strContains (errorYieldFor (PyExn.hfHubHTTPError (canonHfError status)))
        ("Rate Limited") = true) := by
  revert status
  decide

/-- C3 witness: status 401 produces the "Authentication Error" message. -/
theorem C3_http_error_classification_witness :
    errorYieldFor (PyExn.hfHubHTTPError (canonHfError 401)) =
      format_error_message ("Authentication Error")
        ("Invalid or expired API token. The proxy will provide a new token on retry.") ∧
    strContains (errorYieldFor (PyExn.hfHubHTTPError (canonHfError 401)))
      ("Authentication") = true := by
  have h := C3_http_error_classification 401 (by decide) (by decide)
  exact ⟨h.1.trans (by decide), h.2.1 rfl⟩
